import Mathlib

/-!
Verification development for the Datathon2025 document-intake and
sensitivity-classification backend.  The Python sources under
`backend/API` are shallowly embedded as executable Lean definitions:
dictionaries become structures or association lists, floats become
rationals, network and database calls become oracle parameters, and
Python exception flow becomes `Except`.  Theorems about the embedded
definitions settle the claims of the specification.
-/

namespace Datathon

/-! ## Python string primitives

Helpers mirroring the Python string operations used by the sources:
`str.strip`, `str.split()` (whitespace split dropping empties),
`str.isdigit`, `int(...)`, and `float(...)` restricted to the `[\d.]+`
strings produced by the confidence regex. -/

/-- Python `str.strip()` (whitespace at both ends), written over the
character list so that it computes by kernel reduction. -/
def pyStrip (s : String) : String :=
  String.mk (((s.data.dropWhile Char.isWhitespace).reverse.dropWhile Char.isWhitespace).reverse)

/-- Worker for `pySplitWs`: `acc` holds the current token reversed. -/
def pySplitWsAux : List Char → List Char → List String
  | acc, [] => if acc = [] then [] else [String.mk acc.reverse]
  | acc, c :: rest =>
      if c.isWhitespace then
        if acc = [] then pySplitWsAux [] rest
        else String.mk acc.reverse :: pySplitWsAux [] rest
      else pySplitWsAux (c :: acc) rest

/-- Python `str.split()` with no argument: split on whitespace runs,
dropping empty pieces. -/
def pySplitWs (s : String) : List String :=
  pySplitWsAux [] s.data

/-- Python `str.isdigit()` restricted to ASCII: nonempty and all digits. -/
def pyIsDigit (s : String) : Bool :=
  s ≠ "" && s.toList.all Char.isDigit

/-- Digits of a string interpreted as a natural number (the string is
assumed to be all digits). -/
def digitsToNat (cs : List Char) : Nat :=
  cs.foldl (fun acc c => acc * 10 + (c.toNat - '0'.toNat)) 0

/-- Python `int(word)` on a whitespace-free token: optional sign followed
by one or more digits; `none` models `ValueError`. -/
def pyInt (s : String) : Option Int :=
  match s.toList with
  | [] => none
  | '-' :: rest =>
      if rest ≠ [] && rest.all Char.isDigit then some (-(digitsToNat rest : Int)) else none
  | '+' :: rest =>
      if rest ≠ [] && rest.all Char.isDigit then some (digitsToNat rest : Int) else none
  | cs =>
      if cs.all Char.isDigit then some (digitsToNat cs : Int) else none

/-- Python `float(s)` for a string drawn from `[\d.]+` (digits and dots
only, as matched by the confidence regex): at most one dot and at least
one digit; `none` models `ValueError`.  The value is built with `mkRat`
so that it computes by kernel reduction. -/
def pyFloatOfDigitsDots (s : String) : Option ℚ :=
  let cs := s.toList
  let dots := cs.count '.'
  if cs.any Char.isDigit then
    if dots == 0 then
      some (mkRat (digitsToNat cs) 1)
    else if dots == 1 then
      let intPart := cs.takeWhile (· ≠ '.')
      let fracPart := (cs.dropWhile (· ≠ '.')).drop 1
      some (mkRat (digitsToNat intPart * 10 ^ fracPart.length + digitsToNat fracPart)
        (10 ^ fracPart.length))
    else none
  else none

/-- Python list indexing `l[i]` with negative-index wrap-around;
`none` models `IndexError`. -/
def pyListGet {α : Type} (l : List α) (i : Int) : Option α :=
  if 0 ≤ i then
    l.get? i.toNat
  else
    let j : Int := (l.length : Int) + i
    if 0 ≤ j then l.get? j.toNat else none

/-- Python `list.insert(-1, x)`: insert immediately before the last
element; on an empty list the element is inserted at position 0. -/
def pyInsertBeforeLast {α : Type} : List α → α → List α
  | [], x => [x]
  | [a], x => [x, a]
  | a :: b :: rest, x => a :: pyInsertBeforeLast (b :: rest) x

/-- Replace the element at (nonnegative) index `i`, leaving the list
unchanged when the index is out of range. -/
def listModify {α : Type} : List α → Nat → (α → α) → List α
  | [], _, _ => []
  | a :: rest, 0, f => f a :: rest
  | a :: rest, n + 1, f => a :: listModify rest n f

/-! ## Data model

The `{full_text, pages, images}` dictionaries produced by
`pdfparse.extract_text_with_boxes` and consumed by the merger, the
combiner and the upload service. -/

/-- A bounding-polygon vertex (`{'x': ..., 'y': ...}`). -/
structure Point where
  x : ℚ
  y : ℚ
  deriving DecidableEq, Repr

/-- A bounding box (`{'vertices': [...]}`). -/
structure BBox where
  vertices : List Point
  deriving DecidableEq, Repr

/-- One TextAnnotation dictionary as produced by the extractor. -/
structure Ann where
  id : String
  text : String
  bounding_box : BBox
  type : String := "block"
  classification : String := ""
  confidence : String := ""
  explanation : String := ""
  page_number : Option Nat := none
  deriving DecidableEq, Repr

/-- Page pixel dimensions. -/
structure Dimension where
  width : ℚ
  height : ℚ
  deriving DecidableEq, Repr

/-- One page dictionary of a parsed document. -/
structure Page where
  page_number : Option Nat
  dimension : Option Dimension := none
  text_annotations : List Ann
  deriving DecidableEq, Repr

/-- One layout-service image entry (`{'page_number', 'bounding_box'}`). -/
structure ImageEntry where
  page_number : Option Nat
  bounding_box : BBox
  deriving DecidableEq, Repr

/-- The `{full_text, pages, images}` dictionary. -/
structure ExtractedData where
  full_text : String
  pages : List Page
  images : List ImageEntry
  deriving DecidableEq, Repr

/-! ## `pdf_utils.merge_extracted_data`

Embedding of `backend/API/services/pdf_utils.py`, lines 57-110 (the
identical copy in `routes/parse.py` lines 494-547 is the one the parse
route calls). -/

/-- The inner `for annotation in text_annotations` loop: reassign ids
from a running counter, returning the final counter as well. -/
def renumberAnns : Nat → List Ann → Nat × List Ann
  | c, [] => (c, [])
  | c, a :: rest =>
      let r := renumberAnns (c + 1) rest
      (r.1, { a with id := toString c } :: r.2)

/-- The `for page in chunk_pages` loop of `merge_extracted_data`:
rebase page numbers by `offset` and thread the id counter. -/
def mergePagesLoop (offset : Nat) : Nat → List Page → Nat × List Page
  | c, [] => (c, [])
  | c, p :: rest =>
      let r1 := renumberAnns c p.text_annotations
      let r2 := mergePagesLoop offset r1.1 rest
      (r2.1, { p with
                 page_number := some (offset + p.page_number.getD 1),
                 text_annotations := r1.2 } :: r2.2)

/-- Accumulator of the chunk loop of `merge_extracted_data`. -/
structure MergeSt where
  full_text : String := ""
  pages : List Page := []
  images : List ImageEntry := []
  page_offset : Nat := 0
  bbox_id_counter : Nat := 1
  deriving Repr

/-- One iteration of the `for chunk_idx, chunk_data in enumerate(...)`
loop of `merge_extracted_data`. -/
def mergeStep (st : MergeSt) (chunk : ExtractedData) : MergeSt :=
  let ft :=
    if chunk.full_text ≠ "" then
      if st.full_text ≠ "" then st.full_text ++ "\n\n" ++ chunk.full_text
      else st.full_text ++ chunk.full_text
    else st.full_text
  let r := mergePagesLoop st.page_offset st.bbox_id_counter chunk.pages
  let newImages := chunk.images.map
    (fun im => { im with page_number := some (st.page_offset + im.page_number.getD 1) })
  { full_text := ft
    pages := st.pages ++ r.2
    images := st.images ++ newImages
    page_offset := st.page_offset + chunk.pages.length
    bbox_id_counter := r.1 }

/-- `merge_extracted_data(chunks_data)`; `Except.error` models the
`ValueError("No chunks data to merge")` raised on an empty chunk list. -/
def merge_extracted_data (chunks_data : List ExtractedData) : Except String ExtractedData :=
  if chunks_data.isEmpty then
    .error "No chunks data to merge"
  else
    let st := chunks_data.foldl mergeStep {}
    .ok { full_text := st.full_text, pages := st.pages, images := st.images }

/-! Specification-side descriptions of the merged pages and images used
to state the merge claim. -/

/-- Specification-side description (written from the claim, for
comparison with `merge_extracted_data`): every image of a chunk is
rebased by that chunk's page offset, the running total of pages
consumed by prior chunks. -/
def mergeImagesSpec : Nat → List ExtractedData → List ImageEntry
  | _, [] => []
  | off, ch :: rest =>
      ch.images.map (fun im => { im with page_number := some (off + im.page_number.getD 1) })
        ++ mergeImagesSpec (off + ch.pages.length) rest

/-- Total number of text annotations across a chunk's pages. -/
def chunkAnnCount (ch : ExtractedData) : Nat :=
  (ch.pages.map (fun p => p.text_annotations.length)).sum

/-- All annotations of a page list in traversal order. -/
def flatAnns (pages : List Page) : List Ann :=
  (pages.map Page.text_annotations).flatten

/-- The pages produced by the chunk loop, chunk by chunk, threading the
page offset and the id counter exactly as `mergeStep` does. -/
def mergePagesSpec : Nat → Nat → List ExtractedData → List Page
  | _, _, [] => []
  | off, c, ch :: rest =>
      (mergePagesLoop off c ch.pages).2
        ++ mergePagesSpec (off + ch.pages.length) (mergePagesLoop off c ch.pages).1 rest

theorem renumberAnns_counter (c : Nat) (anns : List Ann) :
    (renumberAnns c anns).1 = c + anns.length := by
  induction anns generalizing c with
  | nil => simp [renumberAnns]
  | cons a rest ih => simp [renumberAnns, ih]; omega

theorem renumberAnns_ids (c : Nat) (anns : List Ann) :
    ((renumberAnns c anns).2).map Ann.id
      = (List.range anns.length).map (fun i => toString (c + i)) := by
  induction anns generalizing c with
  | nil => simp [renumberAnns]
  | cons a rest ih =>
      simp only [renumberAnns, List.map_cons, List.length_cons,
        List.range_succ_eq_map, List.map_map, ih, List.cons.injEq]
      refine ⟨by simp, ?_⟩
      apply List.map_congr_left
      intro i _
      have h : c + 1 + i = c + (i + 1) := by omega
      simp [Function.comp, Nat.succ_eq_add_one, h]

theorem mergePagesLoop_counter (off c : Nat) (pages : List Page) :
    (mergePagesLoop off c pages).1 = c + (pages.map (fun p => p.text_annotations.length)).sum := by
  induction pages generalizing c with
  | nil => simp [mergePagesLoop]
  | cons p rest ih =>
      simp [mergePagesLoop, ih, renumberAnns_counter]
      omega

theorem mergePagesLoop_page_numbers (off c : Nat) (pages : List Page) :
    ((mergePagesLoop off c pages).2).map Page.page_number
      = pages.map (fun p => some (off + p.page_number.getD 1)) := by
  induction pages generalizing c with
  | nil => simp [mergePagesLoop]
  | cons p rest ih => simp [mergePagesLoop, ih]

theorem mergePagesLoop_ids (off c : Nat) (pages : List Page) :
    (flatAnns (mergePagesLoop off c pages).2).map Ann.id
      = (List.range ((pages.map (fun p => p.text_annotations.length)).sum)).map
          (fun i => toString (c + i)) := by
  induction pages generalizing c with
  | nil => simp [mergePagesLoop, flatAnns]
  | cons p rest ih =>
      simp only [mergePagesLoop, flatAnns, List.map_cons, List.flatten_cons,
        List.map_append, List.sum_cons]
      rw [renumberAnns_counter, List.range_add, List.map_append, List.map_map]
      congr 1
      · exact renumberAnns_ids c p.text_annotations
      · have h2 := ih (c := c + p.text_annotations.length)
        simp only [flatAnns] at h2
        rw [h2]
        apply List.map_congr_left
        intro i _
        have h : c + p.text_annotations.length + i = c + (p.text_annotations.length + i) := by
          omega
        simp [Function.comp, h]

theorem foldl_mergeStep_pages (chunks : List ExtractedData) (st : MergeSt) :
    (chunks.foldl mergeStep st).pages
      = st.pages ++ mergePagesSpec st.page_offset st.bbox_id_counter chunks := by
  induction chunks generalizing st with
  | nil => simp [mergePagesSpec]
  | cons ch rest ih =>
      simp only [List.foldl_cons, ih, mergePagesSpec]
      simp [mergeStep]

theorem foldl_mergeStep_images (chunks : List ExtractedData) (st : MergeSt) :
    (chunks.foldl mergeStep st).images
      = st.images ++ mergeImagesSpec st.page_offset chunks := by
  induction chunks generalizing st with
  | nil => simp [mergeImagesSpec]
  | cons ch rest ih =>
      simp only [List.foldl_cons, ih, mergeImagesSpec]
      simp [mergeStep]

theorem mergePagesSpec_page_numbers (off c : Nat) (chunks : List ExtractedData)
    (hnum : ∀ ch ∈ chunks, ch.pages.map Page.page_number
      = (List.range ch.pages.length).map (fun i => some (i + 1))) :
    (mergePagesSpec off c chunks).map Page.page_number
      = (List.range ((chunks.map (fun ch => ch.pages.length)).sum)).map
          (fun i => some (off + i + 1)) := by
  induction chunks generalizing off c with
  | nil => simp [mergePagesSpec]
  | cons ch rest ih =>
      simp only [mergePagesSpec, List.map_append, List.map_cons, List.sum_cons]
      rw [List.range_add, List.map_append, List.map_map]
      have hch := hnum ch (by simp)
      have hrest : ∀ x ∈ rest, x.pages.map Page.page_number
          = (List.range x.pages.length).map (fun i => some (i + 1)) := by
        intro x hx; exact hnum x (by simp [hx])
      rw [ih (off + ch.pages.length) (mergePagesLoop off c ch.pages).1 hrest]
      congr 1
      · rw [mergePagesLoop_page_numbers]
        have hmm : ch.pages.map (fun p => some (off + p.page_number.getD 1))
            = (ch.pages.map Page.page_number).map (fun o => some (off + o.getD 1)) := by
          rw [List.map_map]; rfl
        rw [hmm, hch, List.map_map]
        apply List.map_congr_left
        intro i _
        simp only [Function.comp_apply, Option.getD_some, Option.some.injEq]
        omega
      · apply List.map_congr_left
        intro i _
        simp only [Function.comp_apply, Option.some.injEq]
        omega

theorem mergePagesSpec_ids (off c : Nat) (chunks : List ExtractedData) :
    (flatAnns (mergePagesSpec off c chunks)).map Ann.id
      = (List.range ((chunks.map chunkAnnCount).sum)).map (fun i => toString (c + i)) := by
  induction chunks generalizing off c with
  | nil => simp [mergePagesSpec, flatAnns]
  | cons ch rest ih =>
      simp only [mergePagesSpec, flatAnns, List.map_append, List.flatten_append,
        List.map_cons, List.sum_cons, chunkAnnCount]
      rw [List.range_add, List.map_append, List.map_map]
      have h1 := mergePagesLoop_ids off c ch.pages
      simp only [flatAnns] at h1
      have h2 := ih (off + ch.pages.length) (mergePagesLoop off c ch.pages).1
      rw [mergePagesLoop_counter] at h2
      simp only [flatAnns, chunkAnnCount] at h2
      rw [h1, mergePagesLoop_counter, h2]
      congr 1
      apply List.map_congr_left
      intro i _
      have h : c + (ch.pages.map (fun p => p.text_annotations.length)).sum + i
          = c + ((ch.pages.map (fun p => p.text_annotations.length)).sum + i) := by omega
      simp [Function.comp, h]

/-- C5: for every non-empty chunk list whose pages are numbered
`1..len(pages)` within each chunk, `merge_extracted_data` produces page
numbers exactly `1..N` in order (`N` = total pages), reassigns
annotation identifiers as sequential string integers starting at `"1"`
in traversal order, rebases image page numbers by the same per-chunk
offsets, and fails with `ValueError` on an empty chunk list. -/
theorem C5_merge_extracted_data_correct (chunks : List ExtractedData)
    (hne : chunks ≠ [])
    (hnum : ∀ ch ∈ chunks, ch.pages.map Page.page_number
      = (List.range ch.pages.length).map (fun i => some (i + 1))) :
    ∃ merged, merge_extracted_data chunks = .ok merged
      ∧ merged.pages.map Page.page_number
          = (List.range ((chunks.map (fun ch => ch.pages.length)).sum)).map
              (fun i => some (i + 1))
      ∧ (flatAnns merged.pages).map Ann.id
          = (List.range ((chunks.map chunkAnnCount).sum)).map (fun i => toString (i + 1))
      ∧ merged.images = mergeImagesSpec 0 chunks
      ∧ merge_extracted_data ([] : List ExtractedData) = .error "No chunks data to merge" := by
  have hok : merge_extracted_data chunks
      = .ok { full_text := (chunks.foldl mergeStep {}).full_text,
              pages := (chunks.foldl mergeStep {}).pages,
              images := (chunks.foldl mergeStep {}).images } := by
    simp only [merge_extracted_data]
    rw [if_neg (by simpa using hne)]
  refine ⟨_, hok, ?_, ?_, ?_, rfl⟩
  · have h := foldl_mergeStep_pages chunks {}
    simp only [h, List.nil_append]
    rw [mergePagesSpec_page_numbers 0 1 chunks hnum]
    apply List.map_congr_left
    intro i _
    simp
  · have h := foldl_mergeStep_pages chunks {}
    simp only [h, List.nil_append]
    rw [mergePagesSpec_ids 0 1 chunks]
    apply List.map_congr_left
    intro i _
    simp [Nat.add_comm]
  · have h := foldl_mergeStep_images chunks {}
    simp only [h, List.nil_append]

/-- Concrete two-chunk input for the merge witness. -/
def mergeWitnessChunk1 : ExtractedData :=
  { full_text := "alpha"
    pages :=
      [ { page_number := some 1
          text_annotations :=
            [ { id := "1", text := "a", bounding_box := ⟨[]⟩ },
              { id := "2", text := "b", bounding_box := ⟨[]⟩ } ] },
        { page_number := some 2
          text_annotations := [ { id := "1", text := "c", bounding_box := ⟨[]⟩ } ] } ]
    images := [ { page_number := some 1, bounding_box := ⟨[]⟩ } ] }

/-- Concrete second chunk for the merge witness. -/
def mergeWitnessChunk2 : ExtractedData :=
  { full_text := "beta"
    pages :=
      [ { page_number := some 1
          text_annotations := [ { id := "1", text := "d", bounding_box := ⟨[]⟩ } ] } ]
    images := [ { page_number := some 1, bounding_box := ⟨[]⟩ } ] }

/-- Witness for C5 at a concrete two-chunk input. -/
theorem C5_merge_extracted_data_correct_witness :
    ∃ merged, merge_extracted_data [mergeWitnessChunk1, mergeWitnessChunk2] = .ok merged
      ∧ merged.pages.map Page.page_number
          = (List.range (([mergeWitnessChunk1, mergeWitnessChunk2].map
              (fun ch => ch.pages.length)).sum)).map (fun i => some (i + 1))
      ∧ (flatAnns merged.pages).map Ann.id
          = (List.range (([mergeWitnessChunk1, mergeWitnessChunk2].map chunkAnnCount).sum)).map
              (fun i => toString (i + 1))
      ∧ merged.images = mergeImagesSpec 0 [mergeWitnessChunk1, mergeWitnessChunk2]
      ∧ merge_extracted_data ([] : List ExtractedData) = .error "No chunks data to merge" :=
  C5_merge_extracted_data_correct [mergeWitnessChunk1, mergeWitnessChunk2]
    (by decide) (by decide)

/-! ## `bbox_combiner` — geometry primitives and the sequential combiner

Embedding of `backend/API/services/bbox_combiner.py`. -/

/-- Binary minimum written with `if` so that it computes by kernel
reduction (the library order-theoretic `min` does not). -/
def pyMin (a b : ℚ) : ℚ := if a ≤ b then a else b

/-- Binary maximum written with `if` so that it computes. -/
def pyMax (a b : ℚ) : ℚ := if a ≤ b then b else a

/-- `min` of a Python list of numbers (the sources only call it on
nonempty lists; the empty case is unreachable there). -/
def listMinQ : List ℚ → ℚ
  | [] => 0
  | x :: rest => rest.foldl pyMin x

/-- `max` of a Python list of numbers. -/
def listMaxQ : List ℚ → ℚ
  | [] => 0
  | x :: rest => rest.foldl pyMax x

/-- `get_bbox_bounds(bbox)`: `(min_x, min_y, max_x, max_y)` over the
vertices, or all zero for an empty vertex list. -/
def get_bbox_bounds (bbox : BBox) : ℚ × ℚ × ℚ × ℚ :=
  if bbox.vertices = [] then (0, 0, 0, 0)
  else
    let xs := bbox.vertices.map Point.x
    let ys := bbox.vertices.map Point.y
    (listMinQ xs, listMinQ ys, listMaxQ xs, listMaxQ ys)

/-- `get_bbox_area(bbox)`: bounding-rectangle width times height. -/
def get_bbox_area (bbox : BBox) : ℚ :=
  let b := get_bbox_bounds bbox
  (b.2.2.1 - b.1) * (b.2.2.2 - b.2.1)

/-- `combine_bboxes(annotations)`: union rectangle of the member boxes,
re-expressed as a 4-vertex rectangle; singletons keep their own box. -/
def combine_bboxes : List Ann → BBox
  | [] => ⟨[]⟩
  | [a] => a.bounding_box
  | annotations =>
    -- every annotation record carries a `vertices` key, so the
    -- source's `'vertices' not in bbox` skip never fires here
    let bs := annotations.map (fun a => get_bbox_bounds a.bounding_box)
    if bs = [] then ⟨[]⟩
    else
      let combined_min_x := listMinQ (bs.map (fun b => b.1))
      let combined_min_y := listMinQ (bs.map (fun b => b.2.1))
      let combined_max_x := listMaxQ (bs.map (fun b => b.2.2.1))
      let combined_max_y := listMaxQ (bs.map (fun b => b.2.2.2))
      ⟨[ ⟨combined_min_x, combined_min_y⟩,
         ⟨combined_max_x, combined_min_y⟩,
         ⟨combined_max_x, combined_max_y⟩,
         ⟨combined_min_x, combined_max_y⟩ ]⟩

/-- `combine_text_annotations(text_annotations)`: the stripped,
non-empty member texts joined by single spaces, in order. -/
def combine_text_annotations (text_annotations : List Ann) : String :=
  String.intercalate " " ((text_annotations.map (fun a => pyStrip a.text)).filter (· ≠ ""))

/-- The `combined_ann` dictionary built when a sequence is merged:
union box, joined text, and the first member's identifier, type and
classification fields; the page number is the page's own number. -/
def mergeSequence (expected : Nat) (first : Ann) (seq : List Ann) : Ann :=
  { id := first.id
    text := combine_text_annotations seq
    bounding_box := combine_bboxes seq
    type := first.type
    classification := first.classification
    confidence := first.confidence
    explanation := first.explanation
    page_number := some expected }

/-- Flushing a pending sequence (`combine_bounding_boxes` performs this
both when a large box arrives and at the end of the page): singletons
are kept as-is; a sequence whose members carry more than one distinct
page number is kept unmerged (with an error logged); otherwise the
sequence is merged into one annotation. -/
def flushSequence (expected : Nat) : List Ann → List Ann
  | [] => []
  | [a] => [a]
  | a :: b :: rest =>
      let seq := a :: b :: rest
      let sequence_page_numbers := seq.filterMap Ann.page_number
      if sequence_page_numbers ≠ [] ∧ 1 < sequence_page_numbers.dedup.length then
        seq
      else
        [mergeSequence expected a seq]

/-- The `for ann in text_annotations` loop of `combine_bounding_boxes`:
`out` is `combined_annotations`, `cur` is `current_sequence`.  An
annotation whose `page_number` disagrees with the page is skipped;
small boxes accumulate; a large box flushes the pending sequence and is
then appended unchanged; the end of the page flushes the rest. -/
def combinePageLoop (expected : Nat) (maxT : ℚ) :
    List Ann → List Ann → List Ann → List Ann
  | out, cur, [] => out ++ flushSequence expected cur
  | out, cur, ann :: rest =>
      match ann.page_number with
      | some n =>
          if n ≠ expected then
            combinePageLoop expected maxT out cur rest
          else if get_bbox_area ann.bounding_box ≤ maxT then
            combinePageLoop expected maxT out (cur ++ [ann]) rest
          else
            combinePageLoop expected maxT (out ++ flushSequence expected cur ++ [ann]) [] rest
      | none =>
          if get_bbox_area ann.bounding_box ≤ maxT then
            combinePageLoop expected maxT out (cur ++ [ann]) rest
          else
            combinePageLoop expected maxT (out ++ flushSequence expected cur ++ [ann]) [] rest

/-- One iteration of the per-page loop of `combine_bounding_boxes`. -/
def combinePage (maxT : ℚ) (page_idx : Nat) (page_data : Page) : Page :=
  let expected_page_number := page_data.page_number.getD (page_idx + 1)
  if page_data.text_annotations = [] then page_data
  else
    { page_data with
        text_annotations := combinePageLoop expected_page_number maxT [] [] page_data.text_annotations }

/-- `combine_bounding_boxes(extracted_data, ...)`: each page is
processed independently; `min_area_threshold` and `distance_threshold`
are accepted but unused by the sequential algorithm. -/
def combine_bounding_boxes (extracted_data : ExtractedData)
    (min_area_threshold : ℚ := 500) (max_area_threshold : ℚ := 100000)
    (distance_threshold : ℚ := 1000) : ExtractedData :=
  { extracted_data with
      pages := extracted_data.pages.enum.map
        (fun pr => combinePage max_area_threshold pr.1 pr.2) }

theorem dedup_length_le_one_of_all_eq {l : List Nat} {v : Nat} (h : ∀ x ∈ l, x = v) :
    l.dedup.length ≤ 1 := by
  have hsub : ∀ x ∈ l.dedup, x = v := fun x hx => h x (List.mem_dedup.mp hx)
  have hnd := l.nodup_dedup
  match hdd : l.dedup with
  | [] => simp
  | [_] => simp
  | x :: y :: t =>
      rw [hdd] at hsub hnd
      have hx : x = v := hsub x (by simp)
      have hy : y = v := hsub y (by simp)
      rw [List.nodup_cons] at hnd
      exact absurd (by simp [hx, hy] : x ∈ y :: t) hnd.1

theorem one_lt_dedup_length_of_ne {l : List Nat} {p q : Nat}
    (hp : p ∈ l) (hq : q ∈ l) (hne : p ≠ q) : 1 < l.dedup.length := by
  have hp' : p ∈ l.dedup := List.mem_dedup.mpr hp
  have hq' : q ∈ l.dedup := List.mem_dedup.mpr hq
  match hdd : l.dedup with
  | [] => rw [hdd] at hp'; simp at hp'
  | [x] =>
      rw [hdd] at hp' hq'
      simp at hp' hq'
      exact absurd (hp'.trans hq'.symm) hne
  | _ :: _ :: _ => simp

theorem flushSequence_merges (expected : Nat) (a b : Ann) (rest : List Ann)
    (hpg : ∀ x ∈ a :: b :: rest, x.page_number = none ∨ x.page_number = some expected) :
    flushSequence expected (a :: b :: rest) = [mergeSequence expected a (a :: b :: rest)] := by
  have hall : ∀ n ∈ (a :: b :: rest).filterMap Ann.page_number, n = expected := by
    intro n hn
    obtain ⟨x, hx, hfx⟩ := List.mem_filterMap.mp hn
    rcases hpg x hx with h0 | h0 <;> rw [h0] at hfx
    · simp at hfx
    · simpa using hfx.symm
  simp only [flushSequence]
  rw [if_neg]
  rintro ⟨-, hlen⟩
  exact absurd hlen (not_lt.mpr (dedup_length_le_one_of_all_eq hall))

theorem flushSequence_violation_kept (expected : Nat) (a b : Ann) (rest : List Ann)
    (x y : Ann) (px py : Nat)
    (hx : x ∈ a :: b :: rest) (hy : y ∈ a :: b :: rest)
    (hpx : x.page_number = some px) (hpy : y.page_number = some py) (hne : px ≠ py) :
    flushSequence expected (a :: b :: rest) = a :: b :: rest := by
  have hpmem : px ∈ (a :: b :: rest).filterMap Ann.page_number :=
    List.mem_filterMap.mpr ⟨x, hx, hpx⟩
  have hqmem : py ∈ (a :: b :: rest).filterMap Ann.page_number :=
    List.mem_filterMap.mpr ⟨y, hy, hpy⟩
  simp only [flushSequence]
  rw [if_pos]
  exact ⟨by intro h; rw [h] at hpmem; simp at hpmem,
         one_lt_dedup_length_of_ne hpmem hqmem hne⟩

theorem combinePageLoop_accum (expected : Nat) (maxT : ℚ) (seq : List Ann)
    (hsmall : ∀ x ∈ seq, get_bbox_area x.bounding_box ≤ maxT)
    (hpg : ∀ x ∈ seq, x.page_number = none ∨ x.page_number = some expected) :
    ∀ out cur rest, combinePageLoop expected maxT out cur (seq ++ rest)
      = combinePageLoop expected maxT out (cur ++ seq) rest := by
  induction seq with
  | nil => intro out cur rest; simp
  | cons a tail ih =>
      intro out cur rest
      have ha : get_bbox_area a.bounding_box ≤ maxT := hsmall a (by simp)
      have htail1 : ∀ x ∈ tail, get_bbox_area x.bounding_box ≤ maxT := by
        intro x hx; exact hsmall x (by simp [hx])
      have htail2 : ∀ x ∈ tail, x.page_number = none ∨ x.page_number = some expected := by
        intro x hx; exact hpg x (by simp [hx])
      rcases hpg a (by simp) with h0 | h0
      · simp only [List.cons_append, combinePageLoop, h0, List.append_eq]
        rw [if_pos ha, ih htail1 htail2 out (cur ++ [a]) rest]
        simp
      · simp only [List.cons_append, combinePageLoop, h0, List.append_eq]
        rw [if_neg (by simp), if_pos ha, ih htail1 htail2 out (cur ++ [a]) rest]
        simp

theorem combinePageLoop_big_flush (expected : Nat) (maxT : ℚ) (out cur : List Ann) (big : Ann)
    (hbig : ¬ get_bbox_area big.bounding_box ≤ maxT)
    (hbigpage : big.page_number = none ∨ big.page_number = some expected) :
    combinePageLoop expected maxT out cur [big]
      = out ++ flushSequence expected cur ++ [big] := by
  rcases hbigpage with h0 | h0 <;>
    simp [combinePageLoop, h0, if_neg hbig, flushSequence]

/-- C6: with `max_area_threshold = 100000`, a run of at least two
consecutive annotations each of area at most the threshold, flushed by
an oversized annotation (or by the end of the page), is replaced by the
single merged annotation — union rectangle, space-joined non-empty
texts, first member's identifier/type/classification fields — and the
oversized annotation follows unchanged; on areas 100, 200, 150000 the
combiner yields exactly two output annotations from three inputs. -/
theorem C6_combine_bounding_boxes_threshold
    (ft : String) (imgs : List ImageEntry) (pn : Nat) (dim : Option Dimension)
    (a b big : Ann) (rest : List Ann)
    (hsmall : ∀ x ∈ a :: b :: rest, get_bbox_area x.bounding_box ≤ 100000)
    (hpage : ∀ x ∈ a :: b :: rest, x.page_number = none ∨ x.page_number = some pn)
    (hbig : 100000 < get_bbox_area big.bounding_box)
    (hbigpage : big.page_number = none ∨ big.page_number = some pn) :
    (combine_bounding_boxes ⟨ft, [⟨some pn, dim, (a :: b :: rest) ++ [big]⟩], imgs⟩).pages
        = [⟨some pn, dim, [mergeSequence pn a (a :: b :: rest), big]⟩]
    ∧ (combine_bounding_boxes ⟨ft, [⟨some pn, dim, a :: b :: rest⟩], imgs⟩).pages
        = [⟨some pn, dim, [mergeSequence pn a (a :: b :: rest)]⟩]
    ∧ (mergeSequence pn a (a :: b :: rest)).text
        = String.intercalate " "
            (((a :: b :: rest).map (fun x => pyStrip x.text)).filter (· ≠ ""))
    ∧ (mergeSequence pn a (a :: b :: rest)).bounding_box.vertices.length = 4 := by
  have hflush := flushSequence_merges pn a b rest hpage
  have hacc := combinePageLoop_accum pn 100000 (a :: b :: rest) hsmall hpage
  refine ⟨?_, ?_, rfl, ?_⟩
  · simp only [combine_bounding_boxes, List.enum, List.enumFrom, List.map_cons,
      List.map_nil, combinePage]
    rw [if_neg (by simp)]
    have h1 := hacc [] [] [big]
    simp only [List.nil_append] at h1
    simp only [Option.getD_some, h1,
      combinePageLoop_big_flush pn 100000 [] (a :: b :: rest) big
        (not_le.mpr hbig) hbigpage, hflush]
    simp
  · simp only [combine_bounding_boxes, List.enum, List.enumFrom, List.map_cons,
      List.map_nil, combinePage]
    rw [if_neg (by simp)]
    have h1 := hacc [] [] []
    simp only [List.append_nil, List.nil_append] at h1
    simp only [Option.getD_some]
    rw [h1,
      show combinePageLoop pn 100000 [] (a :: b :: rest) []
        = [] ++ flushSequence pn (a :: b :: rest) from rfl,
      hflush]
    simp
  · simp only [mergeSequence, combine_bboxes]
    rw [if_neg (by simp)]
    simp

/-- Concrete single-page document with box areas 100, 200 and 150000. -/
def areaExampleDoc : ExtractedData :=
  { full_text := "t"
    pages :=
      [ { page_number := some 1
          text_annotations :=
            [ { id := "1", text := "first", bounding_box :=
                  ⟨[⟨0, 0⟩, ⟨10, 0⟩, ⟨10, 10⟩, ⟨0, 10⟩]⟩ },
              { id := "2", text := "second", bounding_box :=
                  ⟨[⟨20, 0⟩, ⟨40, 0⟩, ⟨40, 10⟩, ⟨20, 10⟩]⟩ },
              { id := "3", text := "third", bounding_box :=
                  ⟨[⟨0, 20⟩, ⟨500, 20⟩, ⟨500, 320⟩, ⟨0, 320⟩]⟩ } ] } ]
    images := [] }

/-- Witness for C6: the hypotheses hold for the concrete
100/200/150000 document, and the combiner merges the first two boxes
and keeps the oversized third unchanged — two outputs from three
inputs. -/
theorem C6_combine_bounding_boxes_threshold_witness :
    (combine_bounding_boxes
        ⟨"t", [⟨some 1, none,
          [ { id := "1", text := "first", bounding_box :=
                ⟨[⟨0, 0⟩, ⟨10, 0⟩, ⟨10, 10⟩, ⟨0, 10⟩]⟩ },
            { id := "2", text := "second", bounding_box :=
                ⟨[⟨20, 0⟩, ⟨40, 0⟩, ⟨40, 10⟩, ⟨20, 10⟩]⟩ } ]
          ++ [ { id := "3", text := "third", bounding_box :=
                ⟨[⟨0, 20⟩, ⟨500, 20⟩, ⟨500, 320⟩, ⟨0, 320⟩]⟩ } ]⟩], []⟩).pages
      = [⟨some 1, none,
          [ mergeSequence 1
              { id := "1", text := "first", bounding_box :=
                  ⟨[⟨0, 0⟩, ⟨10, 0⟩, ⟨10, 10⟩, ⟨0, 10⟩]⟩ }
              [ { id := "1", text := "first", bounding_box :=
                    ⟨[⟨0, 0⟩, ⟨10, 0⟩, ⟨10, 10⟩, ⟨0, 10⟩]⟩ },
                { id := "2", text := "second", bounding_box :=
                    ⟨[⟨20, 0⟩, ⟨40, 0⟩, ⟨40, 10⟩, ⟨20, 10⟩]⟩ } ],
            { id := "3", text := "third", bounding_box :=
                ⟨[⟨0, 20⟩, ⟨500, 20⟩, ⟨500, 320⟩, ⟨0, 320⟩]⟩ } ]⟩] :=
  (C6_combine_bounding_boxes_threshold "t" [] 1 none
    { id := "1", text := "first", bounding_box := ⟨[⟨0, 0⟩, ⟨10, 0⟩, ⟨10, 10⟩, ⟨0, 10⟩]⟩ }
    { id := "2", text := "second", bounding_box := ⟨[⟨20, 0⟩, ⟨40, 0⟩, ⟨40, 10⟩, ⟨20, 10⟩]⟩ }
    { id := "3", text := "third", bounding_box := ⟨[⟨0, 20⟩, ⟨500, 20⟩, ⟨500, 320⟩, ⟨0, 320⟩]⟩ }
    []
    (by simp [List.forall_mem_cons, get_bbox_area, get_bbox_bounds,
      listMinQ, listMaxQ, pyMin, pyMax] <;> norm_num)
    (by simp)
    (by simp [get_bbox_area, get_bbox_bounds, listMinQ, listMaxQ, pyMin, pyMax] <;> norm_num)
    (by simp)).1

theorem combine_pages_getElem (doc : ExtractedData) (minT maxT dT : ℚ) (i : Nat) :
    (combine_bounding_boxes doc minT maxT dT).pages[i]?
      = doc.pages[i]?.map (combinePage maxT i) := by
  simp only [combine_bounding_boxes]
  rw [List.getElem?_map, List.getElem?_enum]
  cases doc.pages[i]? <;> simp

/-- C7: `combine_bounding_boxes` processes pages independently — the
output list has one entry per input page, and the output at any index
is a function of that index's input page alone — and a flush that
detects members carrying two distinct page numbers keeps the violating
sequence unmerged. -/
theorem C7_combiner_never_crosses_pages
    (doc1 doc2 : ExtractedData) (minT maxT dT : ℚ) (i : Nat)
    (hsame : doc1.pages[i]? = doc2.pages[i]?) :
    (combine_bounding_boxes doc1 minT maxT dT).pages[i]?
        = (combine_bounding_boxes doc2 minT maxT dT).pages[i]?
    ∧ (combine_bounding_boxes doc1 minT maxT dT).pages.length = doc1.pages.length
    ∧ ∀ (expected : Nat) (a b : Ann) (rest : List Ann) (x y : Ann) (px py : Nat),
        x ∈ a :: b :: rest → y ∈ a :: b :: rest →
        x.page_number = some px → y.page_number = some py → px ≠ py →
        flushSequence expected (a :: b :: rest) = a :: b :: rest := by
  refine ⟨?_, ?_, ?_⟩
  · rw [combine_pages_getElem, combine_pages_getElem, hsame]
  · simp [combine_bounding_boxes]
  · intro expected a b rest x y px py hx hy hpx hpy hne
    exact flushSequence_violation_kept expected a b rest x y px py hx hy hpx hpy hne

/-- Witness for C7 on a concrete two-page document and a concrete
violating sequence. -/
theorem C7_combiner_never_crosses_pages_witness :
    (combine_bounding_boxes
        ⟨"t", [⟨some 1, none, []⟩, ⟨some 2, none, []⟩], []⟩ 500 100000 1000).pages[0]?
        = (combine_bounding_boxes
            ⟨"u", [⟨some 1, none, []⟩], []⟩ 500 100000 1000).pages[0]?
    ∧ (combine_bounding_boxes
        ⟨"t", [⟨some 1, none, []⟩, ⟨some 2, none, []⟩], []⟩ 500 100000 1000).pages.length
        = (⟨"t", [⟨some 1, none, []⟩, ⟨some 2, none, []⟩], []⟩ : ExtractedData).pages.length
    ∧ ∀ (expected : Nat) (a b : Ann) (rest : List Ann) (x y : Ann) (px py : Nat),
        x ∈ a :: b :: rest → y ∈ a :: b :: rest →
        x.page_number = some px → y.page_number = some py → px ≠ py →
        flushSequence expected (a :: b :: rest) = a :: b :: rest :=
  C7_combiner_never_crosses_pages
    ⟨"t", [⟨some 1, none, []⟩, ⟨some 2, none, []⟩], []⟩
    ⟨"u", [⟨some 1, none, []⟩], []⟩ 500 100000 1000 0 (by decide)

/-! ## `llm.VultrLLM`

Embedding of `backend/API/services/llm.py`.  The chat-completion POST
is an oracle `respond : LLMRequest → Except String String`; the request
payload that `run` builds is reified so that theorems can inspect the
temperature and token limit actually sent. -/

/-- The JSON payload of one chat-completion call. -/
structure LLMRequest where
  model : String
  system : String
  user : String
  temperature : ℚ
  max_tokens : Nat
  deriving DecidableEq, Repr

/-- The request dictionary built by `VultrLLM.run`: fixed system
preamble, temperature 0.7, max tokens 512. -/
def VultrLLM_run_request (model text : String) : LLMRequest :=
  { model := model
    system := "You are a helpful assistant."
    user := text
    temperature := 7/10
    max_tokens := 512 }

/-- `VultrLLM.run(text)`: posts the fixed-shape request and returns the
first choice content; HTTP and transport failures re-raise. -/
def VultrLLM_run (model : String) (respond : LLMRequest → Except String String)
    (text : String) : Except String String :=
  respond (VultrLLM_run_request model text)

/-- `MAX_TEXT_LENGTH` of `generate_summary`. -/
def MAX_TEXT_LENGTH : Nat := 8000

/-- The fixed summarization prompt template. -/
def generate_summary_prompt (text_to_summarize : String) : String :=
  "Please provide a concise summary of the following document. Focus on the main topics, key points, and important information.\n\nDocument text:\n"
    ++ text_to_summarize ++ "\n\nSummary:"

/-- `VultrLLM.generate_summary(text)`: placeholder for empty or
whitespace-only input without any network call; otherwise truncation to
the first 8000 characters (marker appended when truncation occurred),
the fixed prompt template, and one call to `run`.  The second component
is the list of chat-completion requests issued. -/
def generate_summary (model : String) (respond : LLMRequest → Except String String)
    (text : String) : Except String String × List LLMRequest :=
  if text = "" ∨ pyStrip text = "" then
    (.ok "No text content available for summary.", [])
  else
    let text_to_summarize :=
      if MAX_TEXT_LENGTH < text.length then
        text.take MAX_TEXT_LENGTH ++ "\n\n[Document truncated for summarization]"
      else text
    let prompt := generate_summary_prompt text_to_summarize
    (VultrLLM_run model respond prompt, [VultrLLM_run_request model prompt])

/-- C4 counterexample: on input `"hello"`, `generate_summary` issues a
request with temperature 0.7 (not 0.3) and max tokens 512 (not the
claimed given/default 500), and returns the completion text exactly as
received, not trimmed. -/
theorem C4_generate_summary_counterexample :
    (generate_summary "m" (fun _ => .ok "  S  ") "hello").1 = .ok "  S  "
    ∧ pyStrip "  S  " = "S"
    ∧ (generate_summary "m" (fun _ => .ok "  S  ") "hello").2
        = [{ model := "m", system := "You are a helpful assistant.",
             user := generate_summary_prompt "hello",
             temperature := 7/10, max_tokens := 512 }]
    ∧ (7/10 : ℚ) ≠ 3/10 ∧ (512 : Nat) ≠ 500 :=
  ⟨rfl, by decide, rfl, by norm_num, by decide⟩

/-- C4 as amended: `generate_summary` returns the fixed placeholder
without any network call on empty or whitespace-only input; otherwise
it truncates the input to its first 8000 characters (appending the
truncation marker exactly when truncation occurred), wraps it in the
fixed summarization prompt, delegates to `run` — which always uses
temperature 0.7 and max tokens 512; `generate_summary` accepts no
token-limit argument — and returns the completion text unmodified. -/
theorem C4_generate_summary_amended (model : String)
    (respond : LLMRequest → Except String String) (text : String) :
    (text = "" ∨ pyStrip text = "" →
      generate_summary model respond text
        = (.ok "No text content available for summary.", []))
    ∧ (¬(text = "" ∨ pyStrip text = "") →
        generate_summary model respond text
          = (respond (VultrLLM_run_request model (generate_summary_prompt
                (if 8000 < text.length then
                  text.take 8000 ++ "\n\n[Document truncated for summarization]"
                 else text))),
             [VultrLLM_run_request model (generate_summary_prompt
                (if 8000 < text.length then
                  text.take 8000 ++ "\n\n[Document truncated for summarization]"
                 else text))])
          ∧ (VultrLLM_run_request model (generate_summary_prompt
                (if 8000 < text.length then
                  text.take 8000 ++ "\n\n[Document truncated for summarization]"
                 else text))).temperature = 7/10
          ∧ (VultrLLM_run_request model (generate_summary_prompt
                (if 8000 < text.length then
                  text.take 8000 ++ "\n\n[Document truncated for summarization]"
                 else text))).max_tokens = 512) := by
  constructor
  · intro h
    simp only [generate_summary, if_pos h]
  · intro h
    refine ⟨?_, rfl, rfl⟩
    simp only [generate_summary, if_neg h, MAX_TEXT_LENGTH, VultrLLM_run]

/-- Witness for C4 (amended): the empty-input clause at `""` and the
non-empty clause at `"hello"`, each hypothesis discharged concretely. -/
theorem C4_generate_summary_amended_witness :
    generate_summary "m" (fun _ => .ok " S ") ""
      = (.ok "No text content available for summary.", [])
    ∧ generate_summary "m" (fun _ => .ok " S ") "hello"
      = (.ok " S ",
         [VultrLLM_run_request "m" (generate_summary_prompt
            (if 8000 < ("hello" : String).length then
              ("hello" : String).take 8000 ++ "\n\n[Document truncated for summarization]"
             else "hello"))]) :=
  ⟨(C4_generate_summary_amended "m" (fun _ => .ok " S ") "").1 (Or.inl rfl),
   ((C4_generate_summary_amended "m" (fun _ => .ok " S ") "hello").2
     (by decide)).1⟩

/-! ## `bbox_classification.parse_top_agent_response`

Embedding of `backend/API/services/bbox_classification.py`, lines
19-126, including executable models of the regular expressions it uses
(`re.search` with `IGNORECASE`, and `DOTALL` for the explanation). -/

/-- Case-insensitive "starts with" over character lists. -/
def startsWithCI : List Char → List Char → Bool
  | [], _ => true
  | _ :: _, [] => false
  | n :: ns, h :: hs => n.toLower == h.toLower && startsWithCI ns hs

/-- Case-sensitive "starts with" over character lists. -/
def startsWithCS : List Char → List Char → Bool
  | [], _ => true
  | _ :: _, [] => false
  | n :: ns, h :: hs => n == h && startsWithCS ns hs

/-- Python `needle in hay` (case-sensitive substring containment). -/
def containsSub (needle : List Char) : List Char → Bool
  | [] => startsWithCS needle []
  | c :: rest => startsWithCS needle (c :: rest) || containsSub needle rest

/-- `re.search` for a pattern `LITERAL` followed by a tail parser: scan
positions left to right; wherever the literal matches
case-insensitively, run `cont` on the remaining text; a failing tail
resumes the scan at the next position, exactly as the regex engine
does. -/
def searchCI {α : Type} (needle : List Char) (cont : List Char → Option α) :
    List Char → Option α
  | [] => if startsWithCI needle [] then cont [] else none
  | c :: rest =>
      if startsWithCI needle (c :: rest) then
        match cont ((c :: rest).drop needle.length) with
        | some r => some r
        | none => searchCI needle cont rest
      else searchCI needle cont rest

/-- Tail `\s*(\d+)`: skip whitespace, then one or more digits (the
digit and whitespace classes are disjoint, so greedy matching needs no
backtracking). -/
def contWsDigits (cs : List Char) : Option Nat :=
  let ds := (cs.dropWhile Char.isWhitespace).takeWhile Char.isDigit
  if ds = [] then none else some (digitsToNat ds)

/-- Tail `\s*([\d.]+)` of the first confidence regex. -/
def contWsNumDots (cs : List Char) : Option String :=
  let ds := (cs.dropWhile Char.isWhitespace).takeWhile (fun c => c.isDigit || c == '.')
  if ds = [] then none else some (String.mk ds)

/-- Tail `[:\s]+([\d.]+)` of the fallback confidence regex (the two
character classes are disjoint, so greedy matching needs no
backtracking). -/
def contColonWsNumDots (cs : List Char) : Option String :=
  let ws := cs.takeWhile (fun c => c == ':' || c.isWhitespace)
  if ws = [] then none
  else
    let ds := (cs.drop ws.length).takeWhile (fun c => c.isDigit || c == '.')
    if ds = [] then none else some (String.mk ds)

/-- Does one of the explanation terminators `\n\n`, `\nYes/No:`,
`\nConfidence:` match here (case-insensitively)? -/
def explTermAt (cs : List Char) : Bool :=
  startsWithCI "\n\n".data cs || startsWithCI "\nYes/No:".data cs
    || startsWithCI "\nConfidence:".data cs

/-- The lazy group `(.+?)` with `DOTALL`: extend from one consumed
character until a terminator matches or the text ends. -/
def lazyUntilTerm : List Char → List Char → List Char
  | acc, [] => acc.reverse
  | acc, c :: rest =>
      if explTermAt (c :: rest) then acc.reverse else lazyUntilTerm (c :: acc) rest

/-- Tail `\s*(.+?)(?:\n\n|\nYes/No:|\nConfidence:|$)` of the first
explanation regex, with the group already passed through `.strip()`.
When everything after the whitespace is empty the engine backtracks
`\s*` by one character, so the stripped group is the empty string. -/
def contExplanLazy (cs : List Char) : Option String :=
  if cs = [] then none
  else
    match cs.dropWhile Char.isWhitespace with
    | [] => some ""
    | c :: rest => some (pyStrip (String.mk (lazyUntilTerm [c] rest)))

/-- Tail `\s*(.+)$` of the second (greedy) explanation regex, with the
group already stripped. -/
def contExplanGreedy (cs : List Char) : Option String :=
  if cs = [] then none
  else some (pyStrip (String.mk (cs.dropWhile Char.isWhitespace)))

/-- Python `s.split(sep)` for a one-character separator (keeps empty
pieces). -/
def pySplitOnCharAux (sep : Char) : List Char → List Char → List String
  | acc, [] => [String.mk acc.reverse]
  | acc, c :: rest =>
      if c == sep then String.mk acc.reverse :: pySplitOnCharAux sep [] rest
      else pySplitOnCharAux sep (c :: acc) rest

/-- Python `s.split(sep)` for a one-character separator. -/
def pySplitOnChar (sep : Char) (s : String) : List String :=
  pySplitOnCharAux sep [] s.data

/-- Python `line.split(":", 1)`. -/
def splitOnceColon (s : String) : List String :=
  let pre := s.data.takeWhile (· ≠ ':')
  if pre.length = s.data.length then [s]
  else [String.mk pre, String.mk (s.data.drop (pre.length + 1))]

/-- Python `s.lower()`. -/
def pyLower (s : String) : String := String.mk (s.data.map Char.toLower)

/-- One of the stop keywords of the manual explanation line scan. -/
def lineHasStopKeyword (line : String) : Bool :=
  let low := pyLower line
  containsSub "yes/no:".data low.data || containsSub "confidence:".data low.data
    || containsSub "classification:".data low.data

/-- The manual line scan of `parse_top_agent_response`: accumulate the
lines following an `Explanation:` marker until a stop keyword. -/
def lineScanAux : Bool → List String → List String
  | _, [] => []
  | inExplanationFlag, line :: rest =>
      if containsSub "Explanation:".data line.data
          || containsSub "explanation:".data line.data then
        match splitOnceColon line with
        | [_, after] => pyStrip after :: lineScanAux true rest
        | _ => lineScanAux true rest
      else if inExplanationFlag then
        if lineHasStopKeyword line then []
        else pyStrip line :: lineScanAux true rest
      else lineScanAux false rest

/-- The `explanation_lines` fallback of `parse_top_agent_response`. -/
def lineScanExplanation (last_response : String) : String :=
  let ls := lineScanAux false (pySplitOnChar '\n' last_response)
  if ls = [] then "" else pyStrip (String.intercalate " " ls)

/-- `CATEGORY_NAMES` of `bbox_classification.py`. -/
def CATEGORY_NAMES : Nat → Option String
  | 0 => some "sensitive"
  | 1 => some "confidential"
  | 2 => some "public"
  | 3 => some "unsafe"
  | _ => none

/-- Python `dict.get(key, default)` over an association list. -/
def dictGet (d : List (String × String)) (k dflt : String) : String :=
  match d.find? (fun kv => kv.1 == k) with
  | some kv => kv.2
  | none => dflt

/-- `max` of a Python list of ints. -/
def listMaxInt : List Int → Int
  | [] => 0
  | x :: rest => rest.foldl (fun a b => if a ≤ b then b else a) x

/-- Clamp `max(0.0, min(1.0, confidence))`. -/
def qClamp (q : ℚ) : ℚ := pyMax 0 (pyMin 1 q)

/-- The classification extraction from `response_0`: the
`Classification:\s*(\d+)` regex first (an integer in `[0,3]` maps to
its category name, anything else keeps the default), then the
whitespace-token scan for the first digit-token in `[0,3]`. -/
def parseClassificationFrom (first_response : String) : String :=
  match searchCI "classification:".data contWsDigits first_response.data with
  | some category_num =>
      if category_num ≤ 3 then (CATEGORY_NAMES category_num).getD "public" else "public"
  | none =>
      match (pySplitWs first_response).find?
          (fun w => pyIsDigit w && digitsToNat w.data ≤ 3) with
      | some w => (CATEGORY_NAMES (digitsToNat w.data)).getD "public"
      | none => "public"

/-- The confidence extraction from the last response: the
`Confidence:\s*([\d.]+)` regex, then `Confidence[:\s]+([\d.]+)`; any
parsed float is clamped into `[0.0, 1.0]`; parse failure leaves 0.0. -/
def parseConfidenceFrom (last_response : String) : ℚ :=
  match searchCI "confidence:".data contWsNumDots last_response.data with
  | some numstr =>
      match pyFloatOfDigitsDots numstr with
      | some q => qClamp q
      | none => 0
  | none =>
      match searchCI "confidence".data contColonWsNumDots last_response.data with
      | some numstr =>
          match pyFloatOfDigitsDots numstr with
          | some q => qClamp q
          | none => 0
      | none => 0

/-- The explanation extraction from the last response: lazy regex up to
a blank line or the next field, then the greedy everything-after
variant, then the manual line scan. -/
def parseExplanationFrom (last_response : String) : String :=
  match searchCI "explanation:".data contExplanLazy last_response.data with
  | some e => e
  | none =>
      match searchCI "explanation:".data contExplanGreedy last_response.data with
      | some e => e
      | none => lineScanExplanation last_response

/-- The structured result of `parse_top_agent_response`. -/
structure ParsedClassification where
  classification : String
  confidence : ℚ
  explanation : String
  deriving DecidableEq, Repr

/-- `parse_top_agent_response(response)`: classification read from
`response_0`, confidence and explanation from the numerically-last
`response_N` key; a key whose `_`-suffix fails `int()` takes the
exception path, which returns whatever has been computed so far. -/
def parse_top_agent_response (response : List (String × String)) : ParsedClassification :=
  let response_keys := (response.map Prod.fst).filter
    (fun k => startsWithCS "response_".data k.data)
  if response_keys = [] then ⟨"public", 0, ""⟩
  else
    let first_response := dictGet response "response_0" ""
    let classification :=
      if first_response ≠ "" then parseClassificationFrom first_response else "public"
    match response_keys.mapM (fun k => (pySplitOnChar '_' k).get? 1 >>= pyInt) with
    | none => ⟨classification, 0, ""⟩
    | some response_nums =>
        let last_response_key := "response_" ++ toString (listMaxInt response_nums)
        let last_response := dictGet response last_response_key ""
        if last_response ≠ "" then
          ⟨classification, parseConfidenceFrom last_response,
            parseExplanationFrom last_response⟩
        else ⟨classification, 0, ""⟩

/-- C9: the synthetic agent result from the spec parses to exactly
`confidential` / 0.85 / "contains internal memo language"; the integers
0..3 map to sensitive/confidential/public/unsafe and anything else
defaults to `public`; confidence and explanation are read from the
numerically-last `response_N` key; and parsed confidences are clamped
into `[0,1]` (1.5 parses to 1.0, and -0.3 — which the digits-only regex
cannot even match — yields 0.0). -/
theorem C9_parse_top_agent_response_spec :
    parse_top_agent_response
        [("response_0", "Classification: 1"),
         ("response_1", "Yes/No: 1\nConfidence: 0.85\nExplanation: contains internal memo language")]
      = ⟨"confidential", mkRat 85 100, "contains internal memo language"⟩
    ∧ mkRat 85 100 = 85 / 100
    ∧ (parse_top_agent_response [("response_0", "Classification: 0")]).classification
        = "sensitive"
    ∧ (parse_top_agent_response [("response_0", "Classification: 1")]).classification
        = "confidential"
    ∧ (parse_top_agent_response [("response_0", "Classification: 2")]).classification
        = "public"
    ∧ (parse_top_agent_response [("response_0", "Classification: 3")]).classification
        = "unsafe"
    ∧ (parse_top_agent_response [("response_0", "Classification: 7")]).classification
        = "public"
    ∧ parse_top_agent_response
        [("response_0", "Classification: 1"),
         ("response_2", "Confidence: 0.5\nExplanation: old"),
         ("response_10", "Confidence: 0.7\nExplanation: new")]
      = ⟨"confidential", mkRat 7 10, "new"⟩
    ∧ (parse_top_agent_response
        [("response_0", ""), ("response_1", "Confidence: 1.5")]).confidence = 1
    ∧ (parse_top_agent_response
        [("response_0", ""), ("response_1", "Confidence: -0.3")]).confidence = 0 := by
  refine ⟨by decide, by norm_num [Rat.mkRat_eq_div], by decide, by decide, by decide,
    by decide, by decide, by decide, by decide, by decide⟩

/-! ## `top_agent.ToP_Agent` — chain state, editing and `pick_chain`

Embedding of `backend/API/services/top_agent.py`.  The agent state that
matters to the claims is `self.tree`, the list of the four chains; LLM
calls are oracle functions. -/

/-- `self.tree = [sensitive_chain, confidential_chain, public_chain,
unsafe_chain]`. -/
def ToP_tree (sensitive_chain confidential_chain public_chain unsafe_chain : List String) :
    List (List String) :=
  [sensitive_chain, confidential_chain, public_chain, unsafe_chain]

/-- The classification-number extraction of `ToP_Agent.pick_chain`:
scan the whitespace tokens for the first all-digit token whose value is
in `[0,3]`; failing that, `int(response.split()[1])`, whose result is
returned without any range check; `IndexError`/`ValueError` fall back
to the default category 2. -/
def pick_chain_parse (response : String) : Int :=
  match (pySplitWs response).find? (fun w => pyIsDigit w && digitsToNat w.data ≤ 3) with
  | some w => (digitsToNat w.data : Int)
  | none =>
      match (pySplitWs response).get? 1 >>= pyInt with
      | some n => n
      | none => 2

/-- `ToP_Agent.human_chain_add(tree_index, new_text)`:
`self.tree[tree_index].insert(-1, new_text)`. -/
def ToP_human_chain_add (tree : List (List String)) (tree_index : Nat)
    (new_text : String) : List (List String) :=
  listModify tree tree_index (fun chain => pyInsertBeforeLast chain new_text)

/-- The prompt `ai_chain_edit` builds from the chain minus its closing
instruction plus the suggestion. -/
def ai_chain_edit_prompt (chain : List String) (suggestion : String) : String :=
  "Given these existing prompts for a category:\n"
    ++ String.intercalate "\n" chain.dropLast
    ++ "\n\nCreate a new prompt that addresses this suggestion:\n"
    ++ suggestion
    ++ "\n\nOutput only the new prompt. Do not repeat the existing prompts."

/-- `ToP_Agent.ai_chain_edit(tree_index, suggestion)`: ask the model
for one new instruction and `insert(-1, response)`. -/
def ToP_ai_chain_edit (tree : List (List String)) (tree_index : Nat)
    (suggestion : String) (respond : String → String) : List (List String) :=
  let chain := (tree.get? tree_index).getD []
  let response := respond (ai_chain_edit_prompt chain suggestion)
  listModify tree tree_index (fun ch => pyInsertBeforeLast ch response)

/-- An editing operation of C8: a manual add or an AI edit. -/
inductive ChainEditOp where
  | manualAdd (new_text : String)
  | aiEdit (suggestion : String) (respond : String → String)

/-- Apply one editing operation to the tree at a category index. -/
def applyChainEditOp (tree : List (List String)) (i : Nat) : ChainEditOp → List (List String)
  | .manualAdd t => ToP_human_chain_add tree i t
  | .aiEdit s r => ToP_ai_chain_edit tree i s r

theorem pyInsertBeforeLast_getLast {α : Type} (l : List α) (x : α) (h : l ≠ []) :
    (pyInsertBeforeLast l x).getLast? = l.getLast? := by
  induction l with
  | nil => exact absurd rfl h
  | cons a rest ih =>
      cases rest with
      | nil => simp [pyInsertBeforeLast]
      | cons b rest2 =>
          have step : pyInsertBeforeLast (a :: b :: rest2) x
              = a :: pyInsertBeforeLast (b :: rest2) x := rfl
          rw [step]
          cases hpp : pyInsertBeforeLast (b :: rest2) x with
          | nil => cases rest2 <;> simp [pyInsertBeforeLast] at hpp
          | cons y ys =>
              rw [List.getLast?_cons_cons, ← hpp, ih (by simp), List.getLast?_cons_cons]

theorem pyInsertBeforeLast_length {α : Type} (l : List α) (x : α) :
    (pyInsertBeforeLast l x).length = l.length + 1 := by
  induction l with
  | nil => simp [pyInsertBeforeLast]
  | cons a rest ih =>
      cases rest with
      | nil => simp [pyInsertBeforeLast]
      | cons b rest2 => simp [pyInsertBeforeLast, ih]

theorem listModify_get_self {α : Type} (l : List α) (i : Nat) (f : α → α) :
    (listModify l i f)[i]? = l[i]?.map f := by
  induction l generalizing i with
  | nil => simp [listModify]
  | cons a rest ih =>
      cases i with
      | zero => simp [listModify]
      | succ n => simpa [listModify] using ih n

theorem applyChainEditOp_get (tree : List (List String)) (i : Nat) (op : ChainEditOp)
    (chain : List String) (h : tree[i]? = some chain) :
    ∃ x, (applyChainEditOp tree i op)[i]? = some (pyInsertBeforeLast chain x) := by
  cases op with
  | manualAdd t =>
      refine ⟨t, ?_⟩
      simp only [applyChainEditOp, ToP_human_chain_add]
      rw [listModify_get_self, h]
      rfl
  | aiEdit s r =>
      refine ⟨r (ai_chain_edit_prompt ((tree.get? i).getD []) s), ?_⟩
      simp only [applyChainEditOp, ToP_ai_chain_edit]
      rw [listModify_get_self, h]
      rfl

/-- C8: for any category chain whose last element is the closing
instruction, any sequence of manual-add and AI-edit operations leaves
the closing instruction as the chain's last element and grows the chain
by exactly the number of insertions, because both operations insert
immediately before the last element. -/
theorem C8_chain_edits_preserve_closing (tree : List (List String)) (i : Nat)
    (ops : List ChainEditOp) (chain : List String) (closing : String)
    (hch : tree[i]? = some chain) (hlast : chain.getLast? = some closing) :
    ∃ chain2, (ops.foldl (fun t op => applyChainEditOp t i op) tree)[i]? = some chain2
      ∧ chain2.getLast? = some closing
      ∧ chain2.length = chain.length + ops.length := by
  induction ops generalizing tree chain with
  | nil => exact ⟨chain, by simpa using hch, hlast, by simp⟩
  | cons op rest ih =>
      obtain ⟨x, hx⟩ := applyChainEditOp_get tree i op chain hch
      have hne : chain ≠ [] := by
        intro hempty; rw [hempty] at hlast; simp at hlast
      have hlast2 : (pyInsertBeforeLast chain x).getLast? = some closing := by
        rw [pyInsertBeforeLast_getLast chain x hne, hlast]
      obtain ⟨chain2, h1, h2, h3⟩ := ih _ _ hx hlast2
      refine ⟨chain2, by simpa using h1, h2, ?_⟩
      rw [h3, pyInsertBeforeLast_length]
      simp only [List.length_cons]
      omega

/-- A concrete four-chain tree for the C8 witness. -/
def chainWitnessTree : List (List String) :=
  [["a", "CLOSING"], ["CLOSING"], ["b", "c", "CLOSING"], ["CLOSING"]]

/-- Witness for C8: two manual adds and one AI edit on category 2 of a
concrete tree keep the closing instruction last and grow the chain by
three. -/
theorem C8_chain_edits_preserve_closing_witness :
    ∃ chain2,
      ([ChainEditOp.manualAdd "t1",
        ChainEditOp.aiEdit "s" (fun _ => "gen"),
        ChainEditOp.manualAdd "t2"].foldl
          (fun t op => applyChainEditOp t 2 op) chainWitnessTree)[2]? = some chain2
      ∧ chain2.getLast? = some "CLOSING"
      ∧ chain2.length = 3 + 3 :=
  C8_chain_edits_preserve_closing chainWitnessTree 2
    [ChainEditOp.manualAdd "t1", ChainEditOp.aiEdit "s" (fun _ => "gen"),
     ChainEditOp.manualAdd "t2"]
    ["b", "c", "CLOSING"] "CLOSING" rfl rfl

/-- C10: on a model response like `"Category 7"` whose tokens contain
no integer in `[0,3]` but whose second token parses as an integer,
`pick_chain` returns that integer instead of the documented default 2;
the subsequent `self.tree[classification]` lookup then falls outside
the four-element tree (an `IndexError`), while a negative value such as
`-1` silently selects the unsafe chain — the wrong category — through
Python negative indexing. -/
theorem C10_pick_chain_fallback_unchecked
    (sensitive_chain confidential_chain public_chain unsafe_chain : List String) :
    pick_chain_parse "Category 7" = 7
    ∧ (3 : Int) < pick_chain_parse "Category 7"
    ∧ pick_chain_parse "Category 7" ≠ 2
    ∧ pyListGet (ToP_tree sensitive_chain confidential_chain public_chain unsafe_chain)
        (pick_chain_parse "Category 7") = none
    ∧ pick_chain_parse "Result: -1" = -1
    ∧ pyListGet (ToP_tree sensitive_chain confidential_chain public_chain unsafe_chain)
        (pick_chain_parse "Result: -1") = some unsafe_chain
    ∧ pyListGet (ToP_tree sensitive_chain confidential_chain public_chain unsafe_chain)
        2 = some public_chain := by
  refine ⟨by decide, by decide, by decide, ?_, by decide, ?_, rfl⟩
  · rw [show pick_chain_parse "Category 7" = (7 : Int) from by decide]
    rfl
  · rw [show pick_chain_parse "Result: -1" = (-1 : Int) from by decide]
    rfl

/-! ## Exception model and the classification-agent HTTP routes

Embedding of `backend/API/routes/top_agent.py`.  Python exception flow
becomes `Except PyExc`; each route handler is the body wrapped in the
route's own `except` clauses.  FastAPI HTTPException is a subclass of
`Exception`, so a bare `except Exception` catches it too. -/

/-- The exceptions the routes distinguish. -/
inductive PyExc where
  | http (status : Nat) (detail : String)
  | indexError (msg : String)
  | valueError (msg : String)
  | other (msg : String)
  deriving DecidableEq, Repr

/-- `str(e)`: FastAPI HTTPException stringifies as
`"STATUS: DETAIL"`; the rest stringify as their message. -/
def pyExcStr : PyExc → String
  | .http status detail => toString status ++ ": " ++ detail
  | .indexError msg => msg
  | .valueError msg => msg
  | .other msg => msg

/-- An HTTP response (for errors, `detail` carries the message). -/
structure HTTPResp where
  status : Nat
  detail : String := ""
  deriving DecidableEq, Repr

/-- Python list assignment `l[i] = x` with negative-index wrap-around;
out of range raises `IndexError`. -/
def pyAssignIdx {α : Type} (l : List α) (i : Int) (x : α) : Except PyExc (List α) :=
  if 0 ≤ i ∧ i < (l.length : Int) then
    .ok (listModify l i.toNat (fun _ => x))
  else if -(l.length : Int) ≤ i ∧ i < 0 then
    .ok (listModify l ((l.length : Int) + i).toNat (fun _ => x))
  else .error (.indexError "list assignment index out of range")

/-- Python `l.pop(i)` with negative-index wrap-around; out of range
raises `IndexError`. -/
def pyPop {α : Type} (l : List α) (i : Int) : Except PyExc (List α) :=
  if 0 ≤ i ∧ i < (l.length : Int) then
    .ok (l.eraseIdx i.toNat)
  else if -(l.length : Int) ≤ i ∧ i < 0 then
    .ok (l.eraseIdx ((l.length : Int) + i).toNat)
  else .error (.indexError "pop index out of range")

/-- Body of `POST /top-agent/chain/ai-edit`: the `tree_index` check
raises HTTPException(400) inside the `try`; the agent call issues one
LLM request whose failure propagates. -/
def route_ai_chain_edit_body (tree_index : Int) (llm : Except String String) :
    Except PyExc Unit := do
  if ¬(0 ≤ tree_index ∧ tree_index ≤ 3) then
    throw (.http 400 "tree_index must be between 0 and 3")
  match llm with
  | .ok _ => pure ()
  | .error msg => throw (.other msg)

/-- `POST /top-agent/chain/ai-edit`: the only handler is
`except Exception`, which also catches the 400 HTTPException raised by
the index check and re-raises it as a 500. -/
def route_ai_chain_edit (tree_index : Int) (llm : Except String String) : HTTPResp :=
  match route_ai_chain_edit_body tree_index llm with
  | .ok _ => ⟨200, ""⟩
  | .error e => ⟨500, "Error editing chain: " ++ pyExcStr e⟩

/-- Body of `POST /top-agent/chain/human-add` (`insert(-1, ...)` itself
cannot raise; chain persistence can). -/
def route_human_chain_add_body (tree_index : Int) (save : Except String Unit) :
    Except PyExc Unit := do
  if ¬(0 ≤ tree_index ∧ tree_index ≤ 3) then
    throw (.http 400 "tree_index must be between 0 and 3")
  match save with
  | .ok _ => pure ()
  | .error msg => throw (.other msg)

/-- `POST /top-agent/chain/human-add`: only `except Exception`. -/
def route_human_chain_add (tree_index : Int) (save : Except String Unit) : HTTPResp :=
  match route_human_chain_add_body tree_index save with
  | .ok _ => ⟨200, ""⟩
  | .error e => ⟨500, "Error adding to chain: " ++ pyExcStr e⟩

/-- Body of `POST /top-agent/chain/human-edit`. -/
def route_human_chain_edit_body (tree : List (List String)) (tree_index chain_index : Int)
    (new_text : String) (save : Except String Unit) : Except PyExc Unit := do
  if ¬(0 ≤ tree_index ∧ tree_index ≤ 3) then
    throw (.http 400 "tree_index must be between 0 and 3")
  match pyListGet tree tree_index with
  | none => throw (.indexError "list index out of range")
  | some chain =>
      let _ ← pyAssignIdx chain chain_index new_text
      match save with
      | .ok _ => pure ()
      | .error msg => throw (.other msg)

/-- `POST /top-agent/chain/human-edit`: `except IndexError` maps to
HTTP 400, then `except Exception` (which also catches the 400
HTTPException of the index check) maps to HTTP 500. -/
def route_human_chain_edit (tree : List (List String)) (tree_index chain_index : Int)
    (new_text : String) (save : Except String Unit) : HTTPResp :=
  match route_human_chain_edit_body tree tree_index chain_index new_text save with
  | .ok _ => ⟨200, ""⟩
  | .error (.indexError m) => ⟨400, "Invalid chain_index: " ++ m⟩
  | .error e => ⟨500, "Error editing chain: " ++ pyExcStr e⟩

/-- Body of `POST /top-agent/chain/human-remove`. -/
def route_human_chain_remove_body (tree : List (List String)) (tree_index chain_index : Int)
    (save : Except String Unit) : Except PyExc Unit := do
  if ¬(0 ≤ tree_index ∧ tree_index ≤ 3) then
    throw (.http 400 "tree_index must be between 0 and 3")
  match pyListGet tree tree_index with
  | none => throw (.indexError "list index out of range")
  | some chain =>
      let _ ← pyPop chain chain_index
      match save with
      | .ok _ => pure ()
      | .error msg => throw (.other msg)

/-- `POST /top-agent/chain/human-remove`: `except IndexError` maps to
HTTP 400, then `except Exception` maps to HTTP 500. -/
def route_human_chain_remove (tree : List (List String)) (tree_index chain_index : Int)
    (save : Except String Unit) : HTTPResp :=
  match route_human_chain_remove_body tree tree_index chain_index save with
  | .ok _ => ⟨200, ""⟩
  | .error (.indexError m) => ⟨400, "Invalid chain_index: " ++ m⟩
  | .error e => ⟨500, "Error removing from chain: " ++ pyExcStr e⟩

/-- A concrete four-chain tree for evaluating the routes. -/
def routesTree : List (List String) :=
  [["s1", "END"], ["END"], ["p1", "p2", "END"], ["END"]]

/-- C3, evaluated at the failing input: a `tree_index` outside `[0,3]`
produces HTTP 500 — the deliberately raised HTTPException(400) is
caught by the routes' own `except Exception` and re-raised as 500 with
the 400 message folded into the detail — on all four numeric-index
routes, while an out-of-range chain position does produce HTTP 400. -/
theorem C3_tree_index_500_not_400 :
    route_ai_chain_edit 7 (.ok "generated")
      = ⟨500, "Error editing chain: 400: tree_index must be between 0 and 3"⟩
    ∧ route_human_chain_add 7 (.ok ())
      = ⟨500, "Error adding to chain: 400: tree_index must be between 0 and 3"⟩
    ∧ route_human_chain_edit routesTree 7 0 "t" (.ok ())
      = ⟨500, "Error editing chain: 400: tree_index must be between 0 and 3"⟩
    ∧ route_human_chain_remove routesTree 7 0 (.ok ())
      = ⟨500, "Error removing from chain: 400: tree_index must be between 0 and 3"⟩
    ∧ (route_ai_chain_edit 7 (.ok "generated")).status ≠ 400
    ∧ route_human_chain_edit routesTree 2 99 "t" (.ok ())
      = ⟨400, "Invalid chain_index: list assignment index out of range"⟩
    ∧ route_human_chain_remove routesTree 2 99 (.ok ())
      = ⟨400, "Invalid chain_index: pop index out of range"⟩
    ∧ route_human_chain_edit routesTree 2 1 "t" (.ok ()) = ⟨200, ""⟩
    ∧ route_human_chain_remove routesTree 2 0 (.ok ()) = ⟨200, ""⟩ := by
  refine ⟨by decide, by decide, by decide, by decide, by decide, by decide, by decide,
    by decide, by decide⟩

/-! ## Upload service and the parse route

Embedding of `routes/upload.py` (`upload_file_to_gridfs`,
`upload_bounding_boxes`) and of `routes/parse.py`
(`upload_and_process_pdf` and its image sub-pipeline).  External
systems — PyPDF2, Document AI, GridFS, MongoDB, PyMuPDF, Vision — are
oracle fields of `ParseEnv`.  Every externally visible write the route
performs is recorded in `ParseStores`; in particular the store carries
the lists of chat-completion requests issued and background tasks
scheduled, so that the theorems can speak about their absence. -/

/-- Python `s.endswith(suffix)`. -/
def pyEndsWith (s suffix : String) : Bool :=
  startsWithCS suffix.data.reverse s.data.reverse

/-- A metadata entry for an optional argument: stored only when the
argument is present and truthy. -/
def optMeta (key : String) (o : Option String) : List (String × String) :=
  match o with
  | some s => if s ≠ "" then [(key, s)] else []
  | none => []

/-- `upload_file_to_gridfs`: empty/blank filename raises `ValueError`;
an existing file with this filename is deleted first; the metadata
dictionary holds `filename` and `content_type` plus whichever optional
arguments are truthy.  Returns
`(file_id, is_update, deleted ids, metadata)`. -/
def upload_file_to_gridfs (existing : Option String) (new_id : String)
    (filename : String) (content_type description category status
      ai_classified_sensitivity : Option String) :
    Except PyExc (String × Bool × List String × List (String × String)) :=
  if filename = "" ∨ pyStrip filename = "" then
    .error (.valueError "Filename is required and cannot be empty")
  else
    let is_update := existing.isSome
    let deleted := match existing with | some i => [i] | none => []
    let metadata :=
      [("filename", filename), ("content_type", content_type.getD "application/octet-stream")]
        ++ optMeta "description" description
        ++ optMeta "category" category
        ++ optMeta "status" status
        ++ optMeta "ai_classified_sensitivity" ai_classified_sensitivity
    .ok (new_id, is_update, deleted, metadata)

/-- One page of the stored `bounding_boxes` document. -/
structure BBoxPage where
  page_number : Nat
  text : String
  bounding_boxes : List Ann
  dimensions : Option Dimension
  deriving DecidableEq, Repr

/-- The stored `bounding_boxes` document. -/
structure BBoxDoc where
  pdf_file_id : String
  filename : String
  full_text : String
  pages : List BBoxPage
  images : List ImageEntry
  summary_total_pages : Nat
  summary_total_text_annotations : Nat
  summary_total_images : Nat
  summary_full_text_length : Nat
  deriving DecidableEq, Repr

/-- The document `upload_bounding_boxes` builds and upserts by
filename: per page, the display text prefers block-typed annotations'
texts (newline-joined), falling back to all non-empty annotation
texts. -/
def upload_bounding_boxes_doc (pdf_file_id filename : String)
    (extracted_data : ExtractedData) : BBoxDoc :=
  let pages_data := extracted_data.pages.enum.map (fun pr =>
    let page_num := pr.2.page_number.getD (pr.1 + 1)
    let anns := pr.2.text_annotations
    let block_texts := ((anns.filter (fun a => a.type == "block" && a.text ≠ "")).map Ann.text)
    let page_text :=
      if block_texts ≠ [] then String.intercalate "\n" block_texts
      else String.intercalate "\n" ((anns.filter (fun a => a.text ≠ "")).map Ann.text)
    (⟨page_num, page_text, anns, pr.2.dimension⟩ : BBoxPage))
  { pdf_file_id := pdf_file_id
    filename := filename
    full_text := extracted_data.full_text
    pages := pages_data
    images := extracted_data.images
    summary_total_pages := extracted_data.pages.length
    summary_total_text_annotations :=
      (extracted_data.pages.map (fun p => p.text_annotations.length)).sum
    summary_total_images := extracted_data.images.length
    summary_full_text_length := extracted_data.full_text.length }

/-- The placement rectangle of an extracted embedded image. -/
structure ImgRect where
  x0 : ℚ
  y0 : ℚ
  x1 : ℚ
  y1 : ℚ
  width : ℚ
  height : ℚ
  deriving DecidableEq, Repr

/-- Safe-search result for one image: either the five likelihood names,
or all absent with an error string. -/
structure SafeSearchResult where
  error : Option String := none
  adult : Option String := none
  spoof : Option String := none
  medical : Option String := none
  violence : Option String := none
  racy : Option String := none
  deriving DecidableEq, Repr

/-- `parse_safe_search_result(None, error)`. -/
def parse_safe_search_error (msg : String) : SafeSearchResult :=
  { error := some msg }

/-- One entry of `extract_images_from_pdf` (raw bytes are held only
transiently and are not modelled). -/
structure ImageData where
  page : Nat
  image_index : Nat
  xref : Nat
  extension : String
  size_bytes : Nat
  bounding_box : Option ImgRect
  page_width : ℚ
  page_height : ℚ
  deriving DecidableEq, Repr

/-- One stored entry of the `bounding_boxes_img` document;
`safe_search` is `none` when the key is missing (stored as `{}`). -/
structure StoredImg where
  page : Nat
  image_index : Nat
  xref : Nat
  extension : String
  size_bytes : Nat
  bounding_box : Option ImgRect
  page_width : ℚ
  page_height : ℚ
  safe_search : Option SafeSearchResult
  deriving DecidableEq, Repr

/-- The stored `bounding_boxes_img` document. -/
structure ImgDoc where
  pdf_file_id : String
  filename : String
  images : List StoredImg
  summary_total_images : Nat
  summary_images_with_bbox : Nat
  summary_images_classified : Nat
  deriving DecidableEq, Repr

/-- The document `upload_image_bounding_boxes` builds. -/
def upload_image_bounding_boxes_doc (pdf_file_id filename : String)
    (imgs : List (ImageData × Option SafeSearchResult)) : ImgDoc :=
  let stored := imgs.map (fun p =>
    (⟨p.1.page, p.1.image_index, p.1.xref, p.1.extension, p.1.size_bytes,
      p.1.bounding_box, p.1.page_width, p.1.page_height, p.2⟩ : StoredImg))
  { pdf_file_id := pdf_file_id
    filename := filename
    images := stored
    summary_total_images := stored.length
    summary_images_with_bbox := (stored.filter (fun i => i.bounding_box.isSome)).length
    summary_images_classified :=
      (stored.filter (fun i =>
        match i.safe_search with
        | some r => r.error = none
        | none => false)).length }

/-- A background task scheduled to run after the HTTP response
(`classify_bounding_boxes` of §4.10 would be such a task). -/
inductive BackgroundTask where
  | classifyBoundingBoxes (pdf_file_id : String) (document_summary : String)
  deriving DecidableEq, Repr

/-- Every externally visible write performed by one parse request. -/
structure ParseStores where
  deleted_files : List String := []
  stored_file : Option (String × List (String × String)) := none
  stored_bbox : Option BBoxDoc := none
  stored_img : Option (String × ImgDoc) := none
  llm_requests : List LLMRequest := []
  background_tasks : List BackgroundTask := []
  deriving Repr

/-- Errors of a single Document AI call as the route distinguishes
them: an InvalidArgument whose message mentions the page limit, or
anything else. -/
inductive DocAIErr where
  | pageLimit (msg : String)
  | other (msg : String)
  deriving DecidableEq, Repr

/-- The external world of one parse request. -/
structure ParseEnv where
  env_processor : Option String
  page_count : Except String Nat
  docai_client : Except String Unit
  chunk_extract : Nat → Except String ExtractedData
  single_extract : Except DocAIErr ExtractedData
  gridfs_existing : Option String
  gridfs_new_id : String
  bbox_find_id : Option String
  images_result : Except String (List ImageData)
  vision_client : Bool
  safe_search_results : List SafeSearchResult
  img_insert_id : Option String

/-- The multipart form of `POST /parse/parse-pdf`. -/
structure ParseRequest where
  filename : Option String
  content_type : Option String := none
  processor_name : Option String := none
  description : Option String := none
  category : Option String := none
  status : Option String := some "pending_classification"
  ai_classified_sensitivity : Option String := some "unclassified"

/-- The per-chunk loop of the `> 15 pages` branch: process and extract
each chunk in order, stopping at the first failure with its index. -/
def collectChunks (extract : Nat → Except String ExtractedData) :
    Nat → Nat → Except (Nat × String) (List ExtractedData)
  | _, 0 => .ok []
  | idx, n + 1 =>
      match extract idx with
      | .error m => .error (idx, m)
      | .ok d =>
          match collectChunks extract (idx + 1) n with
          | .error e => .error e
          | .ok rest => .ok (d :: rest)

/-- The image sub-pipeline of the parse route (wrapped in its own
`try`: any failure is logged and processing continues).  Returns
`(image_boxes_id, images_extracted, images_classified, stores)`. -/
def parseImageSection (env : ParseEnv) (pdf_file_id filename : String)
    (s : ParseStores) : Option String × Nat × Nat × ParseStores :=
  match env.images_result with
  | .error _ => (none, 0, 0, s)
  | .ok images_data =>
      let images_extracted := images_data.length
      if images_data = [] then (none, images_extracted, 0, s)
      else
        let classified :=
          if env.vision_client then
            images_data.enum.map (fun pr => (pr.2, env.safe_search_results.get? pr.1))
          else
            images_data.map (fun im =>
              (im, some (parse_safe_search_error "Vision API not available")))
        let images_classified :=
          if env.vision_client then
            ((env.safe_search_results.take images_data.length).filter
              (fun r => r.error = none)).length
          else 0
        match env.img_insert_id with
        | none => (none, images_extracted, images_classified, s)
        | some image_boxes_id =>
            let idoc := upload_image_bounding_boxes_doc pdf_file_id filename classified
            (some image_boxes_id, images_extracted, images_classified,
              { s with stored_img := some (image_boxes_id, idoc) })

/-- The extraction stage of the parse route: split-and-merge for more
than 15 pages, a single Document AI call otherwise, with the page-limit
condition reported as HTTP 400 and every other failure as HTTP 500. -/
def parseExtractStage (env : ParseEnv) (page_count : Nat) : Except HTTPResp ExtractedData :=
  if 15 < page_count then
    let num_chunks := (page_count + 14) / 15
    match collectChunks env.chunk_extract 0 num_chunks with
    | .error em =>
        .error ⟨500, "Error processing PDF chunk " ++ toString (em.1 + 1)
          ++ " of " ++ toString num_chunks ++ ": " ++ em.2⟩
    | .ok chunks_data =>
        match merge_extracted_data chunks_data with
        | .error m => .error ⟨500, "Error processing PDF: " ++ m⟩
        | .ok merged => .ok merged
  else
    match env.single_extract with
    | .error (.pageLimit m) => .error ⟨400, "Document processing failed: " ++ m⟩
    | .error (.other m) => .error ⟨500, "Error processing PDF: " ++ m⟩
    | .ok d => .ok d

/-- The stores after the GridFS upload and the bounding-boxes upsert
(the upsert happens before the id re-read, so it is recorded even when
the re-read then fails). -/
def parseStoresAfterUploads (pdf_file_id fn : String) (deleted : List String)
    (metadata : List (String × String)) (extracted_data : ExtractedData) : ParseStores :=
  { deleted_files := deleted
    stored_file := some (pdf_file_id, metadata)
    stored_bbox := some (upload_bounding_boxes_doc pdf_file_id fn extracted_data) }

/-- The processor resolution `processor_name or
os.getenv("DOCUMENT_AI_PROCESSOR_NAME")` (empty strings are falsy). -/
def resolveProcessor (req : ParseRequest) (env : ParseEnv) : Option String :=
  match req.processor_name with
  | some p => if p ≠ "" then some p else env.env_processor
  | none => env.env_processor

/-- `upload_and_process_pdf` of `routes/parse.py`: filename and
processor validation, page counting, chunked or single Document AI
extraction, GridFS upload, bounding-box upload, the non-fatal image
sub-pipeline, and the 201 response.  An HTTPException raised anywhere
is re-raised as-is; any other exception becomes
HTTP 500 `"Error processing PDF: ..."`. -/
def upload_and_process_pdf (env : ParseEnv) (req : ParseRequest) :
    HTTPResp × ParseStores :=
  match req.filename with
  | none => (⟨400, "Filename is required"⟩, {})
  | some fn =>
    if fn = "" then (⟨400, "Filename is required"⟩, {})
    else if ¬ pyEndsWith fn ".pdf" then (⟨400, "File must be a PDF"⟩, {})
    else
      if resolveProcessor req env = none ∨ resolveProcessor req env = some "" then
        (⟨400, "Processor name not provided. Set DOCUMENT_AI_PROCESSOR_NAME in .env or provide processor_name parameter"⟩, {})
      else
        match env.page_count with
        | .error e => (⟨400, "Invalid PDF file: " ++ e⟩, {})
        | .ok page_count =>
          match env.docai_client with
          | .error msg => (⟨500, msg⟩, {})
          | .ok _ =>
            match parseExtractStage env page_count with
            | .error resp => (resp, {})
            | .ok extracted_data =>
              match upload_file_to_gridfs env.gridfs_existing env.gridfs_new_id fn
                  (some (req.content_type.getD "application/pdf")) req.description
                  req.category req.status req.ai_classified_sensitivity with
              | .error e => (⟨500, "Error processing PDF: " ++ pyExcStr e⟩, {})
              | .ok (pdf_file_id, _is_update, deleted, metadata) =>
                match env.bbox_find_id with
                | none =>
                    (⟨500, "Error processing PDF: Failed to retrieve bounding boxes document for filename: " ++ fn⟩,
                     parseStoresAfterUploads pdf_file_id fn deleted metadata extracted_data)
                | some _bounding_boxes_id =>
                    (⟨201, ""⟩,
                     (parseImageSection env pdf_file_id fn
                       (parseStoresAfterUploads pdf_file_id fn deleted metadata
                         extracted_data)).2.2.2)

theorem parseImageSection_effects (env : ParseEnv) (fid fn : String) (s : ParseStores) :
    (parseImageSection env fid fn s).2.2.2.background_tasks = s.background_tasks
    ∧ (parseImageSection env fid fn s).2.2.2.llm_requests = s.llm_requests
    ∧ (parseImageSection env fid fn s).2.2.2.stored_file = s.stored_file := by
  unfold parseImageSection
  cases env.images_result with
  | error e => exact ⟨rfl, rfl, rfl⟩
  | ok imgs =>
      simp only
      split
      · exact ⟨rfl, rfl, rfl⟩
      · cases env.img_insert_id <;> exact ⟨rfl, rfl, rfl⟩

theorem lookup_summary_optMeta_append (key : String) (o : Option String)
    (rest : List (String × String)) (hk : ("summary" == key) = false) :
    (optMeta key o ++ rest).lookup "summary" = rest.lookup "summary" := by
  cases o with
  | none => rfl
  | some s =>
      by_cases hs : s = ""
      · simp [optMeta, hs]
      · simp [optMeta, hs, List.lookup, hk]

theorem gridfs_metadata_no_summary (existing : Option String) (new_id filename : String)
    (ct d c st ai : Option String) (fid : String) (isu : Bool) (del : List String)
    (md : List (String × String))
    (h : upload_file_to_gridfs existing new_id filename ct d c st ai
      = .ok (fid, isu, del, md)) :
    md.lookup "summary" = none := by
  unfold upload_file_to_gridfs at h
  split at h
  · exact absurd h (by simp)
  · simp only [Except.ok.injEq, Prod.mk.injEq] at h
    obtain ⟨-, -, -, hmd⟩ := h
    rw [← hmd]
    simp only [List.cons_append, List.nil_append, List.append_assoc]
    rw [List.lookup, List.lookup]
    simp only [show (("summary" == "filename") = false) from by decide,
      show (("summary" == "content_type") = false) from by decide, Bool.false_eq_true,
      if_false]
    rw [lookup_summary_optMeta_append _ _ _ (by decide),
      lookup_summary_optMeta_append _ _ _ (by decide),
      lookup_summary_optMeta_append _ _ _ (by decide)]
    rw [← List.append_nil (optMeta "ai_classified_sensitivity" ai),
      lookup_summary_optMeta_append _ _ _ (by decide)]
    rfl

/-- The parse route issues no chat-completion request and schedules no
background task on any path, and any stored file metadata carries no
`summary` key. -/
theorem parse_stores_invariant (env : ParseEnv) (req : ParseRequest) :
    (upload_and_process_pdf env req).2.background_tasks = []
    ∧ (upload_and_process_pdf env req).2.llm_requests = []
    ∧ ∀ fid md, (upload_and_process_pdf env req).2.stored_file = some (fid, md) →
        md.lookup "summary" = none := by
  refine ⟨?_, ?_, ?_⟩
  · unfold upload_and_process_pdf
    repeat' split
    all_goals first
      | rfl
      | exact ((parseImageSection_effects _ _ _ _).1).trans rfl
  · unfold upload_and_process_pdf
    repeat' split
    all_goals first
      | rfl
      | exact ((parseImageSection_effects _ _ _ _).2.1).trans rfl
  · intro fid md h
    unfold upload_and_process_pdf at h
    repeat' split at h
    all_goals try exact Option.noConfusion h
    · change (parseStoresAfterUploads _ _ _ _ _).stored_file = _ at h
      simp only [parseStoresAfterUploads, Option.some.injEq, Prod.mk.injEq] at h
      obtain ⟨-, hmd⟩ := h
      rw [← hmd]
      exact gridfs_metadata_no_summary _ _ _ _ _ _ _ _ _ _ _ _ (by assumption)
    · replace h := ((parseImageSection_effects _ _ _ _).2.2).symm.trans h
      simp only [parseStoresAfterUploads, Option.some.injEq, Prod.mk.injEq] at h
      obtain ⟨-, hmd⟩ := h
      rw [← hmd]
      exact gridfs_metadata_no_summary _ _ _ _ _ _ _ _ _ _ _ _ (by assumption)

/-- A parse request that passes all validation. -/
def parseReqOk : ParseRequest :=
  { filename := some "doc.pdf"
    content_type := some "application/pdf"
    processor_name := some "projects/p/locations/l/processors/x" }

/-- Extraction result with non-empty text for the C1 run. -/
def parseExtractedOk : ExtractedData :=
  { full_text := "Body text"
    pages := [{ page_number := some 1
                text_annotations :=
                  [{ id := "1", text := "Body text", bounding_box := ⟨[]⟩ }] }]
    images := [] }

/-- An environment in which every external step of the parse route
succeeds. -/
def parseEnvOk : ParseEnv :=
  { env_processor := none
    page_count := .ok 2
    docai_client := .ok ()
    chunk_extract := fun _ => .error "not used"
    single_extract := .ok parseExtractedOk
    gridfs_existing := none
    gridfs_new_id := "file123"
    bbox_find_id := some "bbox456"
    images_result := .ok []
    vision_client := false
    safe_search_results := []
    img_insert_id := none }

/-- The same environment with an empty extracted full text. -/
def parseEnvEmptyText : ParseEnv :=
  { parseEnvOk with
      single_extract := .ok
        { full_text := ""
          pages := [{ page_number := some 1
                      text_annotations :=
                        [{ id := "1", text := "", bounding_box := ⟨[]⟩ }] }]
          images := [] } }

/-- C1 counterexample: a fully successful parse request — HTTP 201, the
file and its layout stored — schedules no background task at all, so in
particular `classify_bounding_boxes` is never scheduled with the stored
file identifier and a summary. -/
theorem C1_no_background_classification_counterexample :
    (upload_and_process_pdf parseEnvOk parseReqOk).1.status = 201
    ∧ (upload_and_process_pdf parseEnvOk parseReqOk).2.stored_file.isSome = true
    ∧ (upload_and_process_pdf parseEnvOk parseReqOk).2.stored_bbox.isSome = true
    ∧ (upload_and_process_pdf parseEnvOk parseReqOk).2.background_tasks = [] := by
  refine ⟨by decide, by decide, by decide, by decide⟩

/-- C1 as amended: the parse route schedules no background task on any
path — `classify_bounding_boxes` exists but is never invoked by the
route — and the stored layout keeps each page's annotations exactly as
extracted, with their empty classification fields untouched. -/
theorem C1_parse_route_schedules_no_task (env : ParseEnv) (req : ParseRequest) :
    (upload_and_process_pdf env req).2.background_tasks = []
    ∧ ∀ pdf_file_id fn d,
        (upload_bounding_boxes_doc pdf_file_id fn d).pages.map BBoxPage.bounding_boxes
          = d.pages.map Page.text_annotations := by
  refine ⟨(parse_stores_invariant env req).1, ?_⟩
  intro pdf_file_id fn d
  unfold upload_bounding_boxes_doc
  simp only [List.map_map]
  calc d.pages.enum.map _
      = (d.pages.enum.map Prod.snd).map Page.text_annotations := by
        rw [List.map_map]; rfl
    _ = d.pages.map Page.text_annotations := by rw [List.enum_map_snd]

/-- C2 counterexample: a parse request whose extracted full text is
empty succeeds with HTTP 201 — not HTTP 500 as the claim requires — and
the stored file metadata carries no summary field; no chat-completion
request is ever issued. -/
theorem C2_empty_text_not_fatal_counterexample :
    (upload_and_process_pdf parseEnvEmptyText parseReqOk).1.status = 201
    ∧ (upload_and_process_pdf parseEnvEmptyText parseReqOk).2.stored_file
        = some ("file123",
          [("filename", "doc.pdf"), ("content_type", "application/pdf"),
           ("status", "pending_classification"),
           ("ai_classified_sensitivity", "unclassified")])
    ∧ ([("filename", "doc.pdf"), ("content_type", "application/pdf"),
        ("status", "pending_classification"),
        ("ai_classified_sensitivity", "unclassified")] :
          List (String × String)).lookup "summary" = none
    ∧ (upload_and_process_pdf parseEnvEmptyText parseReqOk).2.llm_requests = [] := by
  refine ⟨by decide, by decide, by decide, by decide⟩

/-- C2 as amended: the parse route performs no summary generation at
all — it issues no chat-completion request on any path, and whatever
file metadata it stores never contains a `summary` key; an empty
extracted full text is not treated as fatal. -/
theorem C2_parse_route_generates_no_summary (env : ParseEnv) (req : ParseRequest) :
    (upload_and_process_pdf env req).2.llm_requests = []
    ∧ ∀ fid md, (upload_and_process_pdf env req).2.stored_file = some (fid, md) →
        md.lookup "summary" = none :=
  ⟨(parse_stores_invariant env req).2.1, (parse_stores_invariant env req).2.2⟩

/-- Witness for C2 (amended) at the concrete empty-text run, with the
stored-metadata hypothesis discharged on the actual stored value. -/
theorem C2_parse_route_generates_no_summary_witness :
    ([("filename", "doc.pdf"), ("content_type", "application/pdf"),
      ("status", "pending_classification"),
      ("ai_classified_sensitivity", "unclassified")] :
        List (String × String)).lookup "summary" = none :=
  (C2_parse_route_generates_no_summary parseEnvEmptyText parseReqOk).2 "file123"
    [("filename", "doc.pdf"), ("content_type", "application/pdf"),
     ("status", "pending_classification"),
     ("ai_classified_sensitivity", "unclassified")]
    (by decide)

end Datathon
